import Mathlib

/-!
# go-hass-agent: sensor state, request type and response handling

A shallow embedding of `internal/sensors/state.go` (the `sensorState` type, its
accessors, `RequestType`, `ResponseHandler`, `marshalSensorState`), of the
registration flow of `internal/agent/register.go` (`saveRegistration`,
`runRegistrationWorker`) and of the generated `sensorType.String` of
`internal/linux/sensorTypeStrings.go`, together with the request envelope that
`internal/hass/api/request_test.go` exercises; the source of `marshalJSON` is not
among the sources, so its definition follows the specification and those tests.

Conventions of the embedding:

* a Go `string` and the bytes of a `bytes.Buffer` are Lean `String`s;
* a Go `interface{}` holding a decoded JSON document is a `Value`;
* a Go `map[string]interface{}` is an association list read with `List.lookup`;
* the pointer field `metadata *sensorMetadata` is an `Option sensorMetadata`
  (`none` is the nil pointer);
* a Go run-time panic (failed type assertion, nil dereference) is the
  `Outcome.panicked` result, carrying the state as mutated up to the panic;
* `json.Unmarshal` is a parameter of `ResponseHandler` (type `Decoder`); the
  decoder `jsonUnmarshal` defined here follows the JSON grammar and is the one
  used to evaluate the handler on concrete bodies;
* log output is not part of the state;
* the preference store is the list of the writes made to it, read with
  `List.lookup`;
* Go's `int` is a 64-bit two's-complement integer (`wrapInt64`).
-/

namespace HassAgent

/-! ## Dynamic values -/

/-- Go `interface{}` values as `encoding/json` produces them when decoding into an
empty interface: `nil`, `bool`, `float64` (kept as its literal), `string`,
`[]interface{}` and `map[string]interface{}`. -/
inductive Value where
  | null
  | bool (b : Bool)
  | number (lit : String)
  | string (s : String)
  | array (xs : List Value)
  | object (kvs : List (String × Value))

/-! ## A JSON decoder

The grammar of RFC 8259 as `encoding/json` accepts it. Recursion is on a fuel
argument; every recursive call consumes at least one character, so the length of
the input plus one is always enough fuel. -/

def isSpace (c : Char) : Bool :=
  c == ' ' || c == '\t' || c == '\n' || c == '\r'

def skipSpace : List Char → List Char
  | [] => []
  | c :: cs => if isSpace c then skipSpace cs else c :: cs

def isDigit (c : Char) : Bool := 48 ≤ c.toNat && c.toNat ≤ 57

def hexVal (c : Char) : Option Nat :=
  if 48 ≤ c.toNat && c.toNat ≤ 57 then some (c.toNat - 48)
  else if 97 ≤ c.toNat && c.toNat ≤ 102 then some (c.toNat - 87)
  else if 65 ≤ c.toNat && c.toNat ≤ 70 then some (c.toNat - 55)
  else none

def hex4 : List Char → Option (Nat × List Char)
  | a :: b :: c :: d :: rest =>
    match hexVal a, hexVal b, hexVal c, hexVal d with
    | some w, some x, some y, some z => some (((w * 16 + x) * 16 + y) * 16 + z, rest)
    | _, _, _, _ => none
  | _ => none

def unescape (c : Char) : Option Char :=
  if c.toNat = 34 then some (Char.ofNat 34)
  else if c.toNat = 92 then some (Char.ofNat 92)
  else if c = '/' then some '/'
  else if c = 'b' then some (Char.ofNat 8)
  else if c = 'f' then some (Char.ofNat 12)
  else if c = 'n' then some '\n'
  else if c = 'r' then some '\r'
  else if c = 't' then some '\t'
  else none

def parseChars : Nat → List Char → List Char → Option (String × List Char)
  | 0, _, _ => none
  | _ + 1, _, [] => none
  | fuel + 1, acc, c :: cs =>
    if c.toNat = 34 then some (String.mk acc.reverse, cs)
    else if c.toNat = 92 then
      match cs with
      | [] => none
      | e :: cs1 =>
        if e = 'u' then
          match hex4 cs1 with
          | none => none
          | some (hi, cs2) =>
            if 0xD800 ≤ hi && hi < 0xDC00 then
              match cs2 with
              | b :: u :: cs3 =>
                if b.toNat = 92 && u == 'u' then
                  match hex4 cs3 with
                  | some (lo, cs4) =>
                    if 0xDC00 ≤ lo && lo < 0xE000 then
                      parseChars fuel
                        (Char.ofNat (0x10000 + (hi - 0xD800) * 0x400 + (lo - 0xDC00)) :: acc) cs4
                    else parseChars fuel (Char.ofNat 0xFFFD :: acc) cs2
                  | none => parseChars fuel (Char.ofNat 0xFFFD :: acc) cs2
                else parseChars fuel (Char.ofNat 0xFFFD :: acc) cs2
              | _ => parseChars fuel (Char.ofNat 0xFFFD :: acc) cs2
            else if 0xDC00 ≤ hi && hi < 0xE000 then
              parseChars fuel (Char.ofNat 0xFFFD :: acc) cs2
            else parseChars fuel (Char.ofNat hi :: acc) cs2
        else
          match unescape e with
          | some ch => parseChars fuel (ch :: acc) cs1
          | none => none
    else if c.toNat < 32 then none
    else parseChars fuel (c :: acc) cs

def spanDigits : List Char → List Char × List Char
  | [] => ([], [])
  | c :: cs =>
    if isDigit c then
      let (ds, rest) := spanDigits cs
      (c :: ds, rest)
    else ([], c :: cs)

def parseInt (cs : List Char) : Option (List Char × List Char) :=
  match cs with
  | [] => none
  | c :: rest =>
    if c = '0' then some ([c], rest)
    else if isDigit c then some (c :: (spanDigits rest).1, (spanDigits rest).2)
    else none

def parseFrac (cs : List Char) : Option (List Char × List Char) :=
  match cs with
  | c :: rest =>
    if c = '.' then
      match spanDigits rest with
      | ([], _) => none
      | (ds, rest1) => some (c :: ds, rest1)
    else some ([], cs)
  | [] => some ([], cs)

def parseExp (cs : List Char) : Option (List Char × List Char) :=
  match cs with
  | c :: rest =>
    if c = 'e' || c = 'E' then
      let (sign, rest1) :=
        match rest with
        | s :: r => if s = '+' || s = '-' then ([s], r) else ([], rest)
        | [] => ([], rest)
      match spanDigits rest1 with
      | ([], _) => none
      | (ds, rest2) => some (c :: sign ++ ds, rest2)
    else some ([], cs)
  | [] => some ([], cs)

def parseNumber (cs : List Char) : Option (String × List Char) :=
  let (sign, cs0) :=
    match cs with
    | c :: rest => if c = '-' then ([c], rest) else ([], cs)
    | [] => ([], cs)
  match parseInt cs0 with
  | none => none
  | some (ip, cs1) =>
    match parseFrac cs1 with
    | none => none
    | some (fp, cs2) =>
      match parseExp cs2 with
      | none => none
      | some (ep, cs3) => some (String.mk (sign ++ ip ++ fp ++ ep), cs3)

def setKey (k : String) (v : Value) (kvs : List (String × Value)) : List (String × Value) :=
  (k, v) :: kvs.filter (fun p => p.1 != k)

mutual
def parseValue : Nat → List Char → Option (Value × List Char)
  | 0, _ => none
  | fuel + 1, cs =>
    match cs with
    | [] => none
    | c :: rest =>
      if c = '{' then
        match skipSpace rest with
        | d :: rest1 =>
          if d = '}' then some (.object [], rest1) else parseMembers fuel [] (d :: rest1)
        | [] => none
      else if c = '[' then
        match skipSpace rest with
        | d :: rest1 =>
          if d = ']' then some (.array [], rest1) else parseElements fuel [] (d :: rest1)
        | [] => none
      else if c.toNat = 34 then
        match parseChars (rest.length + 1) [] rest with
        | some (s, rest1) => some (.string s, rest1)
        | none => none
      else if c = 't' then
        match rest with
        | 'r' :: 'u' :: 'e' :: rest1 => some (.bool true, rest1)
        | _ => none
      else if c = 'f' then
        match rest with
        | 'a' :: 'l' :: 's' :: 'e' :: rest1 => some (.bool false, rest1)
        | _ => none
      else if c = 'n' then
        match rest with
        | 'u' :: 'l' :: 'l' :: rest1 => some (.null, rest1)
        | _ => none
      else
        match parseNumber cs with
        | some (lit, rest1) => some (.number lit, rest1)
        | none => none
def parseElements : Nat → List Value → List Char → Option (Value × List Char)
  | 0, _, _ => none
  | fuel + 1, acc, cs =>
    match parseValue fuel cs with
    | none => none
    | some (v, rest) =>
      match skipSpace rest with
      | d :: rest1 =>
        if d = ',' then parseElements fuel (v :: acc) (skipSpace rest1)
        else if d = ']' then some (.array (v :: acc).reverse, rest1)
        else none
      | [] => none
def parseMembers : Nat → List (String × Value) → List Char → Option (Value × List Char)
  | 0, _, _ => none
  | fuel + 1, acc, cs =>
    match cs with
    | [] => none
    | q :: rest =>
      if q.toNat = 34 then
        match parseChars (rest.length + 1) [] rest with
        | none => none
        | some (k, rest1) =>
          match skipSpace rest1 with
          | [] => none
          | colon :: rest2 =>
            if colon = ':' then
              match parseValue fuel (skipSpace rest2) with
              | none => none
              | some (v, rest3) =>
                match skipSpace rest3 with
                | d :: rest4 =>
                  if d = ',' then parseMembers fuel (setKey k v acc) (skipSpace rest4)
                  else if d = '}' then some (.object (setKey k v acc), rest4)
                  else none
                | [] => none
            else none
      else none
end

/-- Decoding of a whole document, as `json.Unmarshal(body, &r)` with `r` an empty
interface: one JSON value with optional white space around it, anything else is an
error. -/
def jsonDecode (body : String) : Except String Value :=
  match parseValue (body.length + 1) (skipSpace body.data) with
  | some (v, rest) =>
    match skipSpace rest with
    | [] => .ok v
    | _ :: _ => .error "invalid character after top-level value"
  | none => .error "invalid JSON input"

/-- What `ResponseHandler` needs of `json.Unmarshal(body, &r)`: a function from the
body to an error or a decoded value that rejects the empty input and decodes the
text of the empty object to the empty map. -/
structure Decoder where
  decode : String → Except String Value
  decode_empty : ∃ e, decode "" = .error e
  decode_emptyObject : decode "\x7b\x7d" = .ok (.object [])

/-- The decoder of this file as a `Decoder`. -/
def jsonUnmarshal : Decoder :=
  { decode := jsonDecode
    decode_empty := ⟨_, rfl⟩
    decode_emptyObject := rfl }

/-! ## Request types -/

/-- The `hass.RequestType` constants. -/
inductive RequestType where
  | RequestTypeUpdateSensorStates
  | RequestTypeRegisterSensor
  | RequestTypeEncrypted
  deriving DecidableEq, Repr

/-- The wire text of a request type (the `type` discriminator). -/
def RequestType.toString : RequestType → String
  | .RequestTypeUpdateSensorStates => "update_sensor_states"
  | .RequestTypeRegisterSensor => "register_sensor"
  | .RequestTypeEncrypted => "encrypted"

/-! ## Sensor state -/

/-- The `sensorMetadata` struct. -/
structure sensorMetadata where
  Registered : Bool
  Disabled : Bool
  deriving DecidableEq, Repr

/-- The `sensorState` struct. The three class fields are integer enumerations of
package `hass`; `state` and `attributes` are `interface{}` values. -/
structure sensorState where
  deviceClass : Int
  stateClass : Int
  sensorType : Int
  state : Value
  stateUnits : String
  attributes : Value
  icon : String
  name : String
  entityID : String
  category : String
  metadata : Option sensorMetadata

/-- The `hass.SensorUpdate` interface, as the record of what its methods return. -/
structure SensorUpdate where
  ID : String
  Name : String
  DeviceClass : Int
  StateClass : Int
  SensorType : Int
  State : Value
  Attributes : Value
  Icon : String
  Units : String
  Category : String

namespace sensorState

def Icon (s : sensorState) : String := s.icon

def Name (s : sensorState) : String := s.name

def State (s : sensorState) : Value :=
  match s.state with
  | .null => .string "Unknown"
  | v => v

def Attributes (s : sensorState) : Value := s.attributes

def UniqueID (s : sensorState) : String := s.entityID

def UnitOfMeasurement (s : sensorState) : String := s.stateUnits

def EntityCategory (s : sensorState) : String := s.category

def Disabled (s : sensorState) : Bool :=
  match s.metadata with
  | some m => m.Disabled
  | none => false

def Registered (s : sensorState) : Bool :=
  match s.metadata with
  | some m => m.Registered
  | none => false

/-- The method `RequestType`; `none` is the nil-pointer panic of
`sensor.metadata.Registered` when `metadata` is nil. -/
def RequestType (sensor : sensorState) : Option RequestType :=
  match sensor.metadata with
  | none => none
  | some m =>
    if m.Registered then some .RequestTypeUpdateSensorStates
    else some .RequestTypeRegisterSensor

end sensorState

/-- How a call of `ResponseHandler` ends: it returns, or it panics; in both cases
`s` is the sensor state as the call left it. -/
inductive Outcome where
  | returned (s : sensorState)
  | panicked (s : sensorState)

namespace Outcome

def state : Outcome → sensorState
  | returned s => s
  | panicked s => s

def completes : Outcome → Bool
  | returned _ => true
  | panicked _ => false

end Outcome

/-- The block `if v, ok := response["success"]; ok { ... }`: `v.(bool)` panics on
a non-boolean, and `sensor.metadata.Registered` is read (after the short-circuit
`&&`) only when `v` is true. -/
def handleSuccess (sensor : sensorState) (response : List (String × Value)) : Outcome :=
  match response.lookup "success" with
  | none => .returned sensor
  | some (.bool v) =>
    if v then
      match sensor.metadata with
      | none => .panicked sensor
      | some m =>
        if !m.Registered then
          .returned { sensor with metadata := some { m with Registered := true } }
        else .returned sensor
    else .returned sensor
  | some _ => .panicked sensor

/-- The tail `if _, ok := status["is_disabled"]; ok { ... } else if ... { ... }`. -/
def handleDisabled (sensor : sensorState) (status : List (String × Value)) : Outcome :=
  match status.lookup "is_disabled" with
  | some _ =>
    match sensor.metadata with
    | none => .panicked sensor
    | some m => .returned { sensor with metadata := some { m with Disabled := true } }
  | none =>
    match sensor.metadata with
    | none => .panicked sensor
    | some m =>
      if m.Disabled then
        .returned { sensor with metadata := some { m with Disabled := false } }
      else .returned sensor

/-- The block `if v, ok := response[sensor.entityID]; ok { ... }`:
`v.(map[string]interface{})`, `status["success"].(bool)` and, when that is false,
`status["error"].(map[string]interface{})` are unchecked type assertions. -/
def handleStatus (sensor : sensorState) (response : List (String × Value)) : Outcome :=
  match response.lookup sensor.entityID with
  | none => .returned sensor
  | some (.object status) =>
    match status.lookup "success" with
    | some (.bool ok) =>
      if !ok then
        match status.lookup "error" with
        | some (.object _) => handleDisabled sensor status
        | _ => .panicked sensor
      else handleDisabled sensor status
    | _ => .panicked sensor
  | some _ => .panicked sensor

/-- The method `sensorState.ResponseHandler`, with `json.Unmarshal` as the
parameter `unmarshal`. -/
def ResponseHandler (unmarshal : Decoder) (sensor : sensorState) (rawResponse : String) :
    Outcome :=
  if rawResponse.utf8ByteSize == 0 || rawResponse == "\x7b\x7d" then
    .returned sensor
  else
    match unmarshal.decode rawResponse with
    | .error _ => .returned sensor
    | .ok (.object response) =>
      match handleSuccess sensor response with
      | .panicked s => .panicked s
      | .returned s => handleStatus s response
    | .ok _ => .panicked sensor

/-- The constructor `marshalSensorState`: the `metadata` field is not set, so it
is nil. -/
def marshalSensorState (s : SensorUpdate) : sensorState :=
  { entityID := s.ID
    name := s.Name
    deviceClass := s.DeviceClass
    stateClass := s.StateClass
    sensorType := s.SensorType
    state := s.State
    attributes := s.Attributes
    icon := s.Icon
    stateUnits := s.Units
    category := s.Category
    metadata := none }

/-- Two states that differ at most in their metadata. -/
def sameData (a b : sensorState) : Prop :=
  ∃ md, b = { a with metadata := md }

/-! ## Report cycles -/

/-- Successive response bodies applied to one sensor state; a panic ends the run. -/
def handleAll (unmarshal : Decoder) : sensorState → List String → Outcome
  | sensor, [] => .returned sensor
  | sensor, body :: bodies =>
    match ResponseHandler unmarshal sensor body with
    | .returned s => handleAll unmarshal s bodies
    | .panicked s => .panicked s

/-- The request types issued for successive updates of one sensor, one report cycle
per update: the request is sent with the type `RequestType` gives and the sink's
reply (one element of the list per update) is applied with `ResponseHandler`. A
panic ends the run. The fields an update carries do not enter either method, apart
from the ID, which is fixed. -/
def reportUpdates (unmarshal : Decoder) : sensorState → List String → List RequestType
  | _, [] => []
  | sensor, reply :: replies =>
    match sensor.RequestType with
    | none => []
    | some t =>
      match ResponseHandler unmarshal sensor reply with
      | .returned s => t :: reportUpdates unmarshal s replies
      | .panicked _ => [t]

/-- The body decodes to a JSON object whose top-level `success` is `true`. -/
def topSuccess (unmarshal : Decoder) (body : String) : Bool :=
  match unmarshal.decode body with
  | .ok (.object response) =>
    match response.lookup "success" with
    | some (.bool true) => true
    | _ => false
  | _ => false

/-! ## The request envelope -/

/-- The `Request` interface of package `api`, as the record of what its methods
`RequestType` and `RequestData` return; the data is a JSON document given as text
(`json.RawMessage`). -/
structure Request where
  RequestType : HassAgent.RequestType
  RequestData : String

/-- Errors of `marshalJSON`. -/
inductive MarshalError where
  | MissingSecretError
  deriving DecidableEq, Repr

/-- The text `json.Marshal` writes for a `json.RawMessage` holding a JSON document:
white space outside strings is dropped and, as `json.Marshal` does for every
string, the characters `<`, `>`, `&`, U+2028 and U+2029 are written as `\u`
escapes. `inString` and `escaped` track the position inside a string literal. -/
def compactChars : Bool → Bool → List Char → List Char
  | _, _, [] => []
  | inString, escaped, c :: cs =>
    let inString1 :=
      if inString then escaped || c.toNat != 34 else c.toNat == 34
    let escaped1 := inString && !escaped && c.toNat == 92
    if c = '<' then "\\u003c".data ++ compactChars inString1 escaped1 cs
    else if c = '>' then "\\u003e".data ++ compactChars inString1 escaped1 cs
    else if c = '&' then "\\u0026".data ++ compactChars inString1 escaped1 cs
    else if c.toNat = 0x2028 then "\\u2028".data ++ compactChars inString1 escaped1 cs
    else if c.toNat = 0x2029 then "\\u2029".data ++ compactChars inString1 escaped1 cs
    else if !inString && isSpace c then compactChars inString1 escaped1 cs
    else c :: compactChars inString1 escaped1 cs

def compact (data : String) : String :=
  String.mk (compactChars false false data.data)

/-- Modelled from the spec: the function `marshalJSON` of package `api` (`MarshalJSON`
of package `hass`), whose source file is absent; only its tests `Test_marshalJSON`
and `TestMarshalJSON` are present. A request whose type is `encrypted` needs a
configured (non-empty) secret and fails with `MissingSecretError`, returning no
bytes, without one; otherwise the payload is wrapped under `encrypted_data` next
to `encrypted: true`. Any other request wraps the payload under `data`. Both carry
the `type` discriminator. The payload is written in compact form, and, as the
tests fix it, the encrypted envelope carries the payload itself. The result is the
Go pair of bytes (`none` for nil) and error (`none` for nil). -/
def marshalJSON (request : Request) (secret : String) :
    Option String × Option MarshalError :=
  if request.RequestType = .RequestTypeEncrypted then
    if secret = "" then (none, some .MissingSecretError)
    else
      (some ("\x7b\"type\":\"" ++ request.RequestType.toString ++ "\",\"encrypted_data\":" ++
        compact request.RequestData ++ ",\"encrypted\":true\x7d"), none)
  else
    (some ("\x7b\"type\":\"" ++ request.RequestType.toString ++ "\",\"data\":" ++
      compact request.RequestData ++ "\x7d"), none)

/-- The request of the tests: type `update_sensor_states`. -/
def mockReq : Request :=
  { RequestType := .RequestTypeUpdateSensorStates
    RequestData := "\x7b\"someField\": \"someValue\"\x7d" }

/-- The encrypted request of the tests. -/
def mockEncReq : Request :=
  { RequestType := .RequestTypeEncrypted
    RequestData := "\x7b\"someField\": \"someValue\"\x7d" }

/-! ## Sample states -/

def batteryLevelUpdate : SensorUpdate :=
  { ID := "battery_level"
    Name := "Battery Level"
    DeviceClass := 0
    StateClass := 0
    SensorType := 0
    State := .number "87"
    Attributes := .null
    Icon := "mdi:battery"
    Units := "%"
    Category := "" }

/-- The sensor `battery_level` as first added: not registered, not disabled. -/
def batteryLevel : sensorState :=
  { marshalSensorState batteryLevelUpdate with
    metadata := some { Registered := false, Disabled := false } }

def wifiStrengthUpdate : SensorUpdate :=
  { ID := "wifi_strength"
    Name := "Wi-Fi Signal Strength"
    DeviceClass := 0
    StateClass := 0
    SensorType := 0
    State := .number "-42"
    Attributes := .null
    Icon := "mdi:wifi"
    Units := "dBm"
    Category := "" }

/-- The sensor `wifi_strength`: registered and disabled. -/
def wifiStrength : sensorState :=
  { marshalSensorState wifiStrengthUpdate with
    metadata := some { Registered := true, Disabled := true } }

/-! ## Registration -/

/-- Values a preference holds. -/
inductive PrefValue where
  | str (s : String)
  | bool (b : Bool)
  deriving DecidableEq, Repr

/-- The `hass.RegistrationHost` struct, as the record of what `Get()` returns on
each of its three bindings. -/
structure RegistrationHost where
  Server : String
  Token : String
  UseTLS : Bool
  deriving DecidableEq, Repr

/-- The `hass.RegistrationResponse` struct: the four fields `saveRegistration`
reads. -/
structure RegistrationResponse where
  CloudhookURL : String
  RemoteUIURL : String
  Secret : String
  WebhookID : String
  deriving DecidableEq, Repr

/-- What `runRegistrationWorker` reads of the device `linux.NewDevice` returns. -/
structure Device where
  DeviceID : String
  DeviceName : String
  deriving DecidableEq, Repr

/-- The agent as the registration flow sees it: its version and its preference
store. The store is the list of the writes made to it, newest first; a key is
read with `List.lookup`, so the newest write of a key is its value. -/
structure Agent where
  Version : String
  prefs : List (String × PrefValue)
  deriving DecidableEq, Repr

/-- Modelled from the spec: the method `Agent.SetPref`, whose source is absent; the
`set(key, value)` of the preferences collaborator stores the value under the key
and touches no other key. -/
def Agent.SetPref (agent : Agent) (key : String) (value : PrefValue) : Agent :=
  { agent with prefs := (key, value) :: agent.prefs }

/-- Reading a preference. -/
def Agent.GetPref (agent : Agent) (key : String) : Option PrefValue :=
  agent.prefs.lookup key

/-- The method `Agent.saveRegistration`; the closing `time.Sleep` has no effect on
the store. -/
def Agent.saveRegistration (agent : Agent) (r : RegistrationResponse)
    (h : RegistrationHost) : Agent :=
  let host := h.Server
  let useTLS := h.UseTLS
  let agent := agent.SetPref "Host" (.str host)
  let agent := agent.SetPref "UseTLS" (.bool useTLS)
  let token := h.Token
  let agent := agent.SetPref "Token" (.str token)
  let agent := agent.SetPref "Version" (.str agent.Version)
  let agent := if r.CloudhookURL ≠ "" then agent.SetPref "CloudhookURL" (.str r.CloudhookURL)
    else agent
  let agent := if r.RemoteUIURL ≠ "" then agent.SetPref "RemoteUIURL" (.str r.RemoteUIURL)
    else agent
  let agent := if r.Secret ≠ "" then agent.SetPref "Secret" (.str r.Secret) else agent
  let agent := if r.WebhookID ≠ "" then agent.SetPref "WebhookID" (.str r.WebhookID)
    else agent
  agent

/-- The result of a run of `runRegistrationWorker`: the agent afterwards, the
returned error (`none` for nil) and the calls made to `hass.RegisterWithHass`, in
order. -/
structure RegistrationRun (Req : Type) where
  agent : Agent
  err : Option String
  registerCalls : List (RegistrationHost × Req)

/-- The method `Agent.runRegistrationWorker`. `thisDevice` is what `linux.NewDevice`
returns, `getRegistrationInfo` is what the call of that function argument returns
(`none` for nil), and `GenerateRegistrationRequest` and `RegisterWithHass` stand
for the functions of packages `device` and `hass`. -/
def Agent.runRegistrationWorker {Req : Type} (agent : Agent) (thisDevice : Device)
    (getRegistrationInfo : Option RegistrationHost)
    (GenerateRegistrationRequest : Device → Req)
    (RegisterWithHass : RegistrationHost → Req → Option RegistrationResponse) :
    RegistrationRun Req :=
  let agent := agent.SetPref "DeviceID" (.str thisDevice.DeviceID)
  let agent := agent.SetPref "DeviceName" (.str thisDevice.DeviceName)
  let registrationHostInfo := getRegistrationInfo
  match registrationHostInfo with
  | some hostInfo =>
    let registrationRequest := GenerateRegistrationRequest thisDevice
    let appRegistrationInfo := RegisterWithHass hostInfo registrationRequest
    match appRegistrationInfo with
    | some info =>
      { agent := agent.saveRegistration info hostInfo
        err := none
        registerCalls := [(hostInfo, registrationRequest)] }
    | none =>
      { agent := agent
        err := some "registration failed"
        registerCalls := [(hostInfo, registrationRequest)] }
  | none =>
    { agent := agent
      err := some "problem getting registration information"
      registerCalls := [] }

/-- The preference keys that hold connection credentials. -/
def credentialKeys : List String :=
  ["Host", "UseTLS", "Token", "WebhookID", "Secret", "CloudhookURL", "RemoteUIURL"]

/-- A fresh agent, a device and host information for the examples. -/
def sampleAgent : Agent := { Version := "1.0.0", prefs := [] }

def sampleDevice : Device := { DeviceID := "device-1", DeviceName := "laptop" }

def sampleHost : RegistrationHost :=
  { Server := "localhost:8123", Token := "token", UseTLS := false }

/-- A registration response that carries none of the credential fields. -/
def emptyResponse : RegistrationResponse :=
  { CloudhookURL := "", RemoteUIURL := "", Secret := "", WebhookID := "" }

/-- A registration response that carries a webhook ID and a secret. -/
def sampleResponse : RegistrationResponse :=
  { CloudhookURL := "", RemoteUIURL := "", Secret := "s3cret", WebhookID := "webhook-1" }

/-! ## Sensor type names -/

/-- Two's-complement wrap-around of Go's 64-bit `int`. -/
def wrapInt64 (x : Int) : Int :=
  (x + 9223372036854775808) % 18446744073709551616 - 9223372036854775808

/-- The function `strconv.FormatInt(i, 10)`: the decimal digits of `i`, preceded by a
minus sign when `i` is negative. -/
def FormatInt (i : Int) : String :=
  if i < 0 then "-" ++ Nat.repr i.natAbs else Nat.repr i.natAbs

/-- The constant `_sensorType_name` of the generated file. -/
def sensorType_name : String :=
  "Active AppRunning AppsBattery TypeBattery LevelBattery TemperatureBattery VoltageBattery EnergyBattery PowerBattery StateBattery PathBattery LevelBattery ModelMemory TotalMemory AvailableMemory UsedSwap Memory TotalSwap Memory UsedSwap Memory FreeConnection StateConnection IDConnection DeviceConnection TypeConnection IPv4Connection IPv6IPv4 AddressIPv6 AddressWi-Fi SSIDWi-Fi FrequencyWi-Fi Link SpeedWi-Fi Signal StrengthWi-Fi BSSIDBytes SentBytes RecievedPower ProfileLast RebootUptimeCPU load average (1 min)CPU load average (5 min)CPU load average (15 min)Screen LockProblems"

/-- The array `_sensorType_index` of the generated file. -/
def sensorType_index : List Nat :=
  [0, 10, 22, 34, 47, 66, 81, 95, 108, 121, 133, 146, 159, 171, 187, 198, 215, 231, 247,
   263, 276, 293, 308, 323, 338, 350, 362, 372, 387, 403, 424, 435, 445, 459, 472, 483,
   489, 513, 537, 562, 573, 581]

/-- The Go slice expression `s[lo:hi]` on a string of one-byte characters; `none`
is the panic on bounds that are out of order or out of range. -/
def sliceString (s : String) (lo hi : Nat) : Option String :=
  if lo ≤ hi ∧ hi ≤ s.utf8ByteSize then some (String.mk ((s.data.drop lo).take (hi - lo)))
  else none

/-- The method `sensorType.String` of the generated file, on the 64-bit integer `i`;
`none` is a panic (index or slice bounds out of range). -/
def sensorType.String (i : Int) : Option String :=
  let i := wrapInt64 (i - 1)
  if i < 0 ∨ i ≥ wrapInt64 ((sensorType_index.length : Int) - 1) then
    some ("sensorType(" ++ FormatInt (wrapInt64 (i + 1)) ++ ")")
  else
    match sensorType_index[i.toNat]?, sensorType_index[i.toNat + 1]? with
    | some lo, some hi => sliceString sensorType_name lo hi
    | _, _ => none

/-- The display names in the order of the constants `appActive` (1) to `problem`
(41), as the slices of `_sensorType_name` give them. -/
def sensorTypeNames : List String :=
  ["Active App", "Running Apps", "Battery Type", "Battery Level", "Battery Temperature",
   "Battery Voltage", "Battery Energy", "Battery Power", "Battery State", "Battery Path",
   "Battery Level", "Battery Model", "Memory Total", "Memory Available", "Memory Used",
   "Swap Memory Total", "Swap Memory Used", "Swap Memory Free", "Connection State",
   "Connection ID", "Connection Device", "Connection Type", "Connection IPv4",
   "Connection IPv6", "IPv4 Address", "IPv6 Address", "Wi-Fi SSID", "Wi-Fi Frequency",
   "Wi-Fi Link Speed", "Wi-Fi Signal Strength", "Wi-Fi BSSID", "Bytes Sent",
   "Bytes Recieved", "Power Profile", "Last Reboot", "Uptime", "CPU load average (1 min)",
   "CPU load average (5 min)", "CPU load average (15 min)", "Screen Lock", "Problems"]

/-! ## Auxiliary facts -/

theorem utf8ByteSize_eq_zero (s : String) (h : s.utf8ByteSize = 0) : s = "" := by
  cases s with
  | mk data =>
    cases data with
    | nil => rfl
    | cons c cs =>
      have hc := Char.utf8Size_pos c
      simp [String.utf8ByteSize, String.utf8ByteSize.go] at h
      omega

/-- A body that decodes to a map with at least one key is neither empty nor the
text of the empty object, so `ResponseHandler` takes its `default` branch. -/
theorem decoded_key_handled (unmarshal : Decoder) (body : String)
    (response : List (String × Value)) (k : String) (v : Value)
    (hdec : unmarshal.decode body = .ok (.object response))
    (hk : response.lookup k = some v) :
    (body.utf8ByteSize == 0 || body == "\x7b\x7d") = false := by
  by_contra hne
  simp only [Bool.not_eq_false, Bool.or_eq_true, beq_iff_eq] at hne
  rcases hne with h0 | h1
  · have hb := utf8ByteSize_eq_zero body h0
    obtain ⟨e, he⟩ := unmarshal.decode_empty
    rw [hb, he] at hdec
    cases hdec
  · rw [h1, unmarshal.decode_emptyObject] at hdec
    injection hdec with hdec
    injection hdec with hdec
    subst hdec
    simp at hk

/-- On a body that decodes to a non-empty map the handler is the `success` block
followed by the per-sensor block. -/
theorem ResponseHandler_object (unmarshal : Decoder) (sensor : sensorState) (body : String)
    (response : List (String × Value)) (k : String) (v : Value)
    (hdec : unmarshal.decode body = .ok (.object response))
    (hk : response.lookup k = some v) :
    ResponseHandler unmarshal sensor body =
      match handleSuccess sensor response with
      | .panicked s => .panicked s
      | .returned s => handleStatus s response := by
  have hg := decoded_key_handled unmarshal body response k v hdec hk
  unfold ResponseHandler
  rw [hg, hdec]
  simp

theorem handleSuccess_registered (sensor : sensorState) (response : List (String × Value))
    (h : sensor.Registered = true) : (handleSuccess sensor response).state.Registered = true := by
  unfold handleSuccess
  repeat' split
  all_goals simp_all [Outcome.state, sensorState.Registered]

theorem handleDisabled_registered (sensor : sensorState) (status : List (String × Value))
    (h : sensor.Registered = true) : (handleDisabled sensor status).state.Registered = true := by
  unfold handleDisabled
  repeat' split
  all_goals simp_all [Outcome.state, sensorState.Registered]

theorem handleStatus_registered (sensor : sensorState) (response : List (String × Value))
    (h : sensor.Registered = true) : (handleStatus sensor response).state.Registered = true := by
  unfold handleStatus
  repeat' split
  all_goals
    first
      | exact handleDisabled_registered _ _ h
      | simpa [Outcome.state] using h

theorem ResponseHandler_registered (unmarshal : Decoder) (sensor : sensorState) (body : String)
    (h : sensor.Registered = true) :
    (ResponseHandler unmarshal sensor body).state.Registered = true := by
  unfold ResponseHandler
  split
  · simpa [Outcome.state] using h
  · split
    · simpa [Outcome.state] using h
    · rename_i response _
      have h1 := handleSuccess_registered sensor response h
      cases hs : handleSuccess sensor response with
      | panicked s => rw [hs] at h1; simpa [Outcome.state] using h1
      | returned s =>
        rw [hs] at h1
        exact handleStatus_registered s response (by simpa [Outcome.state] using h1)
    · simpa [Outcome.state] using h

/-! ## The frame of response handling -/

theorem sameData_refl (a : sensorState) : sameData a a := ⟨a.metadata, rfl⟩

theorem sameData_trans {a b c : sensorState} (h1 : sameData a b) (h2 : sameData b c) :
    sameData a c := by
  obtain ⟨md1, rfl⟩ := h1
  obtain ⟨md2, rfl⟩ := h2
  exact ⟨md2, rfl⟩

theorem handleSuccess_sameData (sensor : sensorState) (response : List (String × Value)) :
    sameData sensor (handleSuccess sensor response).state := by
  unfold handleSuccess
  repeat' split
  all_goals exact sameData_refl _

theorem handleDisabled_sameData (sensor : sensorState) (status : List (String × Value)) :
    sameData sensor (handleDisabled sensor status).state := by
  unfold handleDisabled
  repeat' split
  all_goals exact sameData_refl _

theorem handleStatus_sameData (sensor : sensorState) (response : List (String × Value)) :
    sameData sensor (handleStatus sensor response).state := by
  unfold handleStatus
  repeat' split
  all_goals first
    | exact handleDisabled_sameData _ _
    | exact sameData_refl _

theorem ResponseHandler_sameData (unmarshal : Decoder) (sensor : sensorState) (body : String) :
    sameData sensor (ResponseHandler unmarshal sensor body).state := by
  unfold ResponseHandler
  split
  · exact sameData_refl _
  · split
    · exact sameData_refl _
    · rename_i response _
      have h1 := handleSuccess_sameData sensor response
      cases hs : handleSuccess sensor response with
      | panicked s => rw [hs] at h1; exact h1
      | returned s =>
        rw [hs] at h1
        exact sameData_trans h1 (handleStatus_sameData s response)
    · exact sameData_refl _

/-! ## The registered flag -/

theorem topSuccess_empty (unmarshal : Decoder) (body : String)
    (h : (body.utf8ByteSize == 0 || body == "\x7b\x7d") = true) :
    topSuccess unmarshal body = false := by
  simp only [Bool.or_eq_true, beq_iff_eq] at h
  unfold topSuccess
  rcases h with h0 | h1
  · obtain ⟨e, he⟩ := unmarshal.decode_empty
    rw [utf8ByteSize_eq_zero body h0, he]
  · rw [h1, unmarshal.decode_emptyObject]
    rfl

/-- With metadata attached, the `success` block sets `Registered` when `success`
is `true` and changes nothing else, however it ends. -/
theorem handleSuccess_metadata (sensor : sensorState) (m : sensorMetadata)
    (response : List (String × Value)) (hm : sensor.metadata = some m) :
    (handleSuccess sensor response).state.metadata =
      some { m with Registered := m.Registered ||
        match response.lookup "success" with
        | some (.bool true) => true
        | _ => false } := by
  unfold handleSuccess
  generalize response.lookup "success" = l
  cases m with
  | mk r d =>
    cases l with
    | none => simp [Outcome.state, hm]
    | some v =>
      cases v with
      | bool b => cases b <;> cases r <;> simp [Outcome.state, hm]
      | null => simp [Outcome.state, hm]
      | number lit => simp [Outcome.state, hm]
      | string s => simp [Outcome.state, hm]
      | array xs => simp [Outcome.state, hm]
      | object kvs => simp [Outcome.state, hm]

/-- With metadata attached, the `is_disabled` step returns and sets `Disabled` to
the presence of the key. -/
theorem handleDisabled_metadata (sensor : sensorState) (m : sensorMetadata)
    (status : List (String × Value)) (hm : sensor.metadata = some m) :
    ∃ s, handleDisabled sensor status = .returned s ∧
      s.metadata = some { m with Disabled := (status.lookup "is_disabled").isSome } := by
  unfold handleDisabled
  generalize status.lookup "is_disabled" = l
  cases m with
  | mk r d =>
    cases l with
    | none => cases d <;> simp [hm]
    | some v => simp [hm]

theorem handleStatus_metadata (sensor : sensorState) (m : sensorMetadata)
    (response : List (String × Value)) (hm : sensor.metadata = some m) :
    ∃ d, (handleStatus sensor response).state.metadata = some { m with Disabled := d } := by
  have keep : ∃ d, sensor.metadata = some { m with Disabled := d } := ⟨m.Disabled, hm⟩
  have step : ∀ status, ∃ d, (handleDisabled sensor status).state.metadata =
      some { m with Disabled := d } := by
    intro status
    obtain ⟨s, hs, hs2⟩ := handleDisabled_metadata sensor m status hm
    exact ⟨_, by rw [hs]; exact hs2⟩
  unfold handleStatus
  repeat' split
  all_goals first
    | exact step _
    | exact keep

/-- With metadata attached, `Registered` after the handler is `Registered` before
or `topSuccess` of the body, however the call ends. -/
theorem ResponseHandler_registered_eq (unmarshal : Decoder) (sensor : sensorState)
    (m : sensorMetadata) (body : String) (hm : sensor.metadata = some m) :
    ∃ d, (ResponseHandler unmarshal sensor body).state.metadata =
      some { Registered := m.Registered || topSuccess unmarshal body, Disabled := d } := by
  by_cases hg : (body.utf8ByteSize == 0 || body == "\x7b\x7d") = true
  · refine ⟨m.Disabled, ?_⟩
    rw [topSuccess_empty unmarshal body hg]
    unfold ResponseHandler
    rw [if_pos hg]
    simp [Outcome.state, hm]
  · unfold ResponseHandler topSuccess
    rw [if_neg hg]
    split
    · rename_i e he
      exact ⟨m.Disabled, by simp [Outcome.state, hm, he]⟩
    · rename_i response he
      have hr1 := handleSuccess_metadata sensor m response hm
      simp only [he]
      cases hs : handleSuccess sensor response with
      | panicked s =>
        rw [hs] at hr1
        exact ⟨m.Disabled, by simpa [Outcome.state] using hr1⟩
      | returned s =>
        rw [hs] at hr1
        simp only [Outcome.state] at hr1
        obtain ⟨d, hd⟩ := handleStatus_metadata s _ response hr1
        exact ⟨d, by simpa using hd⟩
    · rename_i v hv he
      refine ⟨m.Disabled, ?_⟩
      simp only [he, Outcome.state, hm]
      cases v <;> first | exact absurd rfl (hv _) | simp

/-! ## Response handling: bodies that are not decoded -/

theorem ResponseHandler_ignored (unmarshal : Decoder) (sensor : sensorState) (body : String)
    (h : (body.utf8ByteSize == 0 || body == "\x7b\x7d") = true) :
    ResponseHandler unmarshal sensor body = .returned sensor := by
  unfold ResponseHandler
  rw [if_pos h]

theorem ResponseHandler_error (unmarshal : Decoder) (sensor : sensorState) (body e : String)
    (h : unmarshal.decode body = .error e) :
    ResponseHandler unmarshal sensor body = .returned sensor := by
  unfold ResponseHandler
  split
  · rfl
  · rw [h]

/-- C6: for every decoder and every sensor state, `ResponseHandler` applied to the
empty body (zero bytes) or to the literal body of the empty object returns
normally with the state, and so both metadata flags, exactly as before. -/
theorem ResponseHandler_empty_body (unmarshal : Decoder) (sensor : sensorState) :
    ResponseHandler unmarshal sensor "" = .returned sensor ∧
    ResponseHandler unmarshal sensor "\x7b\x7d" = .returned sensor ∧
    (ResponseHandler unmarshal sensor "").state.Registered = sensor.Registered ∧
    (ResponseHandler unmarshal sensor "").state.Disabled = sensor.Disabled ∧
    (ResponseHandler unmarshal sensor "\x7b\x7d").state.Registered = sensor.Registered ∧
    (ResponseHandler unmarshal sensor "\x7b\x7d").state.Disabled = sensor.Disabled := by
  have h1 : ResponseHandler unmarshal sensor "" = .returned sensor :=
    ResponseHandler_ignored unmarshal sensor "" rfl
  have h2 : ResponseHandler unmarshal sensor "\x7b\x7d" = .returned sensor :=
    ResponseHandler_ignored unmarshal sensor "\x7b\x7d" rfl
  simp [h1, h2, Outcome.state]

/-- C7: for every decoder, sensor state and body on which `json.Unmarshal` reports an
error, `ResponseHandler` returns normally and leaves the state, and so `Registered`
and `Disabled`, unchanged. -/
theorem ResponseHandler_unparsable (unmarshal : Decoder) (sensor : sensorState)
    (body e : String) (h : unmarshal.decode body = .error e) :
    ResponseHandler unmarshal sensor body = .returned sensor ∧
    (ResponseHandler unmarshal sensor body).completes = true ∧
    (ResponseHandler unmarshal sensor body).state.Registered = sensor.Registered ∧
    (ResponseHandler unmarshal sensor body).state.Disabled = sensor.Disabled := by
  have h1 := ResponseHandler_error unmarshal sensor body e h
  simp [h1, Outcome.state, Outcome.completes]

theorem ResponseHandler_unparsable_witness :
    jsonUnmarshal.decode "\x7b\"success\":tru" = .error "invalid JSON input" ∧
    ResponseHandler jsonUnmarshal wifiStrength "\x7b\"success\":tru" =
      .returned wifiStrength :=
  ⟨rfl, (ResponseHandler_unparsable jsonUnmarshal wifiStrength "\x7b\"success\":tru"
    "invalid JSON input" rfl).1⟩

/-- C8: for every decoder, sensor state and response body, however the call ends,
`ResponseHandler` leaves entity ID, name, state value, units, attributes, icon,
category, device class, state class and sensor type as they were: only the
metadata can differ. -/
theorem ResponseHandler_frame (unmarshal : Decoder) (sensor : sensorState) (body : String) :
    (ResponseHandler unmarshal sensor body).state.entityID = sensor.entityID ∧
    (ResponseHandler unmarshal sensor body).state.name = sensor.name ∧
    (ResponseHandler unmarshal sensor body).state.state = sensor.state ∧
    (ResponseHandler unmarshal sensor body).state.stateUnits = sensor.stateUnits ∧
    (ResponseHandler unmarshal sensor body).state.attributes = sensor.attributes ∧
    (ResponseHandler unmarshal sensor body).state.icon = sensor.icon ∧
    (ResponseHandler unmarshal sensor body).state.category = sensor.category ∧
    (ResponseHandler unmarshal sensor body).state.deviceClass = sensor.deviceClass ∧
    (ResponseHandler unmarshal sensor body).state.stateClass = sensor.stateClass ∧
    (ResponseHandler unmarshal sensor body).state.sensorType = sensor.sensorType := by
  obtain ⟨md, h⟩ := ResponseHandler_sameData unmarshal sensor body
  rw [h]
  simp

/-! ## Registration requests over a run of updates -/

theorem sameData_entityID {a b : sensorState} (h : sameData a b) : b.entityID = a.entityID := by
  obtain ⟨md, rfl⟩ := h
  rfl

theorem reportUpdates_registered (unmarshal : Decoder) (replies : List String) :
    ∀ (sensor : sensorState) (m : sensorMetadata), sensor.metadata = some m →
      m.Registered = true →
      (reportUpdates unmarshal sensor replies).count .RequestTypeRegisterSensor = 0 := by
  induction replies with
  | nil => intro sensor m _ _; simp [reportUpdates]
  | cons reply replies ih =>
    intro sensor m hm hr
    obtain ⟨d, hd⟩ := ResponseHandler_registered_eq unmarshal sensor m reply hm
    rw [hr, Bool.true_or] at hd
    simp only [reportUpdates, sensorState.RequestType, hm, hr, if_true]
    cases hres : ResponseHandler unmarshal sensor reply with
    | panicked s => simp
    | returned s =>
      rw [hres] at hd
      simp only [Outcome.state] at hd
      have := ih s _ hd rfl
      simp [this]

/-- C1 (amended): for a sensor whose state starts unregistered, when every reply
before reply `b` is handled to completion without a top-level `success` of `true`
and `b` carries a top-level `success` of `true`, a `register_sensor` request is
issued for every update up to and including the one answered by `b` and for none
after it, whatever the later replies are; with no earlier reply this is exactly one
registration request. -/
theorem register_requests_until_success (unmarshal : Decoder) (pre : List String) :
    ∀ (sensor : sensorState) (m : sensorMetadata) (b : String) (post : List String),
      sensor.metadata = some m → m.Registered = false →
      (∀ x ∈ pre, topSuccess unmarshal x = false ∧
        ∀ t : sensorState, t.entityID = sensor.entityID → t.metadata ≠ none →
          (ResponseHandler unmarshal t x).completes = true) →
      topSuccess unmarshal b = true →
      (reportUpdates unmarshal sensor (pre ++ b :: post)).count .RequestTypeRegisterSensor =
        pre.length + 1 := by
  induction pre with
  | nil =>
    intro sensor m b post hm hr _ hb
    obtain ⟨d, hd⟩ := ResponseHandler_registered_eq unmarshal sensor m b hm
    rw [hb, Bool.or_true] at hd
    simp only [List.nil_append, reportUpdates, sensorState.RequestType, hm, hr]
    cases hres : ResponseHandler unmarshal sensor b with
    | panicked s => simp
    | returned s =>
      rw [hres] at hd
      simp only [Outcome.state] at hd
      have := reportUpdates_registered unmarshal post s _ hd rfl
      simp [this]
  | cons x pre ih =>
    intro sensor m b post hm hr hpre hb
    obtain ⟨hx, hc⟩ := hpre x (List.mem_cons_self _ _)
    obtain ⟨d, hd⟩ := ResponseHandler_registered_eq unmarshal sensor m x hm
    rw [hx, hr, Bool.or_false] at hd
    have hcomp := hc sensor rfl (by simp [hm])
    have hsame := ResponseHandler_sameData unmarshal sensor x
    simp only [List.cons_append, reportUpdates, sensorState.RequestType, hm, hr]
    cases hres : ResponseHandler unmarshal sensor x with
    | panicked s => rw [hres] at hcomp; simp [Outcome.completes] at hcomp
    | returned s =>
      rw [hres] at hd hsame
      simp only [Outcome.state] at hd hsame
      have hid : s.entityID = sensor.entityID := sameData_entityID hsame
      have := ih s _ b post hd rfl
        (fun y hy => ⟨(hpre y (List.mem_cons_of_mem _ hy)).1,
          fun t ht hmt => (hpre y (List.mem_cons_of_mem _ hy)).2 t (ht.trans hid) hmt⟩) hb
      simp [this]

/-- C1 (as stated) fails: the sensor `battery_level`, not yet registered, reports
three updates; the sink answers the first with a top-level `success` of `false`,
and the second update is sent as `register_sensor` again. -/
theorem two_registration_requests :
    reportUpdates jsonUnmarshal batteryLevel
        ["\x7b\"success\":false\x7d", "\x7b\"success\":true\x7d",
         "\x7b\"battery_level\":\x7b\"success\":true\x7d\x7d"] =
      [.RequestTypeRegisterSensor, .RequestTypeRegisterSensor,
       .RequestTypeUpdateSensorStates] ∧
    (reportUpdates jsonUnmarshal batteryLevel
        ["\x7b\"success\":false\x7d", "\x7b\"success\":true\x7d",
         "\x7b\"battery_level\":\x7b\"success\":true\x7d\x7d"]).count
      .RequestTypeRegisterSensor ≠ 1 := by
  decide

theorem register_requests_until_success_witness :
    batteryLevel.metadata = some { Registered := false, Disabled := false } ∧
    topSuccess jsonUnmarshal "\x7b\"success\":true\x7d" = true ∧
    (reportUpdates jsonUnmarshal batteryLevel
        (["\x7b\x7d"] ++ "\x7b\"success\":true\x7d" :: ["not json"])).count
      .RequestTypeRegisterSensor = 2 :=
  ⟨rfl, by decide,
    register_requests_until_success jsonUnmarshal ["\x7b\x7d"] batteryLevel
      { Registered := false, Disabled := false } "\x7b\"success\":true\x7d" ["not json"]
      rfl rfl
      (by
        intro x hx
        rw [List.mem_singleton] at hx
        subst hx
        refine ⟨by decide, fun t _ _ => ?_⟩
        rw [ResponseHandler_ignored jsonUnmarshal t "\x7b\x7d" rfl]
        rfl)
      (by decide)⟩

/-! ## The registered flag: claims -/

theorem handleSuccess_returns (sensor : sensorState) (m : sensorMetadata)
    (response : List (String × Value)) (hm : sensor.metadata = some m)
    (htop : response.lookup "success" = none ∨
      ∃ b, response.lookup "success" = some (.bool b)) :
    ∃ s, handleSuccess sensor response = .returned s := by
  unfold handleSuccess
  rcases htop with h | ⟨b, h⟩
  · rw [h]
    exact ⟨_, rfl⟩
  · rw [h]
    cases b <;> cases hr : m.Registered <;> simp [hm, hr]

/-- With metadata attached: for every sensor state whose metadata has
`Registered = false` and every body that decodes to an object with top-level
`success` equal to `true` and no entry keyed by the sensor's ID, `ResponseHandler`
returns the state with `Registered` set and nothing else changed: `Registered` is
`true` and `Disabled` is as before. -/
theorem ResponseHandler_success_registers (unmarshal : Decoder) (sensor : sensorState)
    (m : sensorMetadata) (body : String) (response : List (String × Value))
    (hm : sensor.metadata = some m) (hr : m.Registered = false)
    (hdec : unmarshal.decode body = .ok (.object response))
    (hs : response.lookup "success" = some (.bool true))
    (hid : response.lookup sensor.entityID = none) :
    ResponseHandler unmarshal sensor body =
      .returned { sensor with metadata := some { m with Registered := true } } ∧
    (ResponseHandler unmarshal sensor body).state.Registered = true ∧
    (ResponseHandler unmarshal sensor body).state.Disabled = sensor.Disabled := by
  have h : ResponseHandler unmarshal sensor body =
      .returned { sensor with metadata := some { m with Registered := true } } := by
    rw [ResponseHandler_object unmarshal sensor body response "success" _ hdec hs]
    simp [handleSuccess, handleStatus, hs, hm, hr, hid]
  rw [h]
  simp [Outcome.state, sensorState.Registered, sensorState.Disabled, hm]

theorem ResponseHandler_success_registers_witness :
    batteryLevel.metadata = some { Registered := false, Disabled := false } ∧
    jsonUnmarshal.decode "\x7b\"success\":true\x7d" =
      .ok (.object [("success", .bool true)]) ∧
    (ResponseHandler jsonUnmarshal batteryLevel "\x7b\"success\":true\x7d").state.Registered
      = true ∧
    (ResponseHandler jsonUnmarshal batteryLevel "\x7b\"success\":true\x7d").state.Disabled
      = batteryLevel.Disabled :=
  ⟨rfl, rfl,
    (ResponseHandler_success_registers jsonUnmarshal batteryLevel
      { Registered := false, Disabled := false } "\x7b\"success\":true\x7d"
      [("success", .bool true)] rfl rfl rfl rfl rfl).2⟩

/-- C3 on the code: the sensor `battery_level` as `marshalSensorState` builds it has
nil metadata, so `Registered()` reports false; on the body with top-level `success`
equal to `true` and no entry for the sensor, the handler reads
`sensor.metadata.Registered` through the nil pointer and panics, and the sensor is
still unregistered afterwards, where the claim says it ends registered. -/
theorem ResponseHandler_success_nil_metadata_panics :
    (marshalSensorState batteryLevelUpdate).Registered = false ∧
    (marshalSensorState batteryLevelUpdate).Disabled = false ∧
    jsonUnmarshal.decode "\x7b\"success\":true\x7d" =
      .ok (.object [("success", .bool true)]) ∧
    List.lookup (marshalSensorState batteryLevelUpdate).entityID
      [("success", Value.bool true)] = none ∧
    ResponseHandler jsonUnmarshal (marshalSensorState batteryLevelUpdate)
        "\x7b\"success\":true\x7d" =
      .panicked (marshalSensorState batteryLevelUpdate) ∧
    (ResponseHandler jsonUnmarshal (marshalSensorState batteryLevelUpdate)
        "\x7b\"success\":true\x7d").completes = false ∧
    (ResponseHandler jsonUnmarshal (marshalSensorState batteryLevelUpdate)
        "\x7b\"success\":true\x7d").state.Registered = false :=
  ⟨rfl, rfl, rfl, rfl, rfl, rfl, rfl⟩

theorem Registered_metadata (sensor : sensorState) (h : sensor.Registered = true) :
    ∃ d, sensor.metadata = some { Registered := true, Disabled := d } := by
  unfold sensorState.Registered at h
  cases hm : sensor.metadata with
  | none => simp [hm] at h
  | some m =>
    cases m with
    | mk r d =>
      simp [hm] at h
      exact ⟨d, by rw [h]⟩

theorem handleAll_registered (unmarshal : Decoder) (bodies : List String) :
    ∀ sensor : sensorState, sensor.Registered = true →
      (handleAll unmarshal sensor bodies).state.Registered = true := by
  induction bodies with
  | nil => intro sensor h; simpa [handleAll, Outcome.state] using h
  | cons body bodies ih =>
    intro sensor h
    have h1 := ResponseHandler_registered unmarshal sensor body h
    simp only [handleAll]
    cases hres : ResponseHandler unmarshal sensor body with
    | panicked s => rw [hres] at h1; exact h1
    | returned s => rw [hres] at h1; exact ih s h1

/-- C4: for every sensor state with `Registered` true and every response body,
`Registered` is still true after `ResponseHandler` (whether the call completes or
not); hence after any sequence of responses `Registered` is true and `RequestType`
is `update_sensor_states`. -/
theorem registered_never_reverts (unmarshal : Decoder) (sensor : sensorState)
    (h : sensor.Registered = true) :
    (∀ body, (ResponseHandler unmarshal sensor body).state.Registered = true) ∧
    (∀ bodies, (handleAll unmarshal sensor bodies).state.Registered = true ∧
      (handleAll unmarshal sensor bodies).state.RequestType =
        some .RequestTypeUpdateSensorStates) := by
  refine ⟨fun body => ResponseHandler_registered unmarshal sensor body h, fun bodies => ?_⟩
  have h1 := handleAll_registered unmarshal bodies sensor h
  refine ⟨h1, ?_⟩
  obtain ⟨d, hd⟩ := Registered_metadata _ h1
  simp [sensorState.RequestType, hd]

theorem registered_never_reverts_witness :
    wifiStrength.Registered = true ∧
    (handleAll jsonUnmarshal wifiStrength
        ["\x7b\"success\":false\x7d", "", "\x7b\"wifi_strength\":\x7b\"success\":true\x7d\x7d"]
      ).state.RequestType = some .RequestTypeUpdateSensorStates :=
  ⟨rfl, ((registered_never_reverts jsonUnmarshal wifiStrength rfl).2 _).2⟩

/-! ## The request type -/

/-- C2 on the code: a state just built by `marshalSensorState` has nil metadata, so
`Registered()` reports false while `RequestType()` panics instead of returning
`register_sensor`; for a state with metadata attached `RequestType` is
`register_sensor` exactly when `Registered()` is false and `update_sensor_states`
exactly when it is true. -/
theorem RequestType_nil_metadata (s : SensorUpdate) (sensor : sensorState)
    (m : sensorMetadata) :
    (marshalSensorState s).Registered = false ∧
    (marshalSensorState s).RequestType = none ∧
    (({ sensor with metadata := some m } : sensorState).RequestType =
        some .RequestTypeRegisterSensor ↔
      ({ sensor with metadata := some m } : sensorState).Registered = false) ∧
    (({ sensor with metadata := some m } : sensorState).RequestType =
        some .RequestTypeUpdateSensorStates ↔
      ({ sensor with metadata := some m } : sensorState).Registered = true) := by
  refine ⟨rfl, rfl, ?_, ?_⟩ <;>
    cases hr : m.Registered <;> simp [sensorState.RequestType, sensorState.Registered, hr]

/-! ## The disabled flag -/

/-- C5 (amended): for every sensor state with metadata attached and every body that
decodes to an object whose top-level `success`, if present, is a boolean and which
has an entry keyed by the sensor's own ID (an object with a boolean `success`, and
an `error` object when that is false), `ResponseHandler` completes and `Disabled`
is afterwards true if the entry has an `is_disabled` key and false if it has none,
whatever `Disabled` was before. -/
theorem ResponseHandler_disabled (unmarshal : Decoder) (sensor : sensorState)
    (m : sensorMetadata) (body : String) (response status : List (String × Value))
    (ok : Bool)
    (hm : sensor.metadata = some m)
    (hdec : unmarshal.decode body = .ok (.object response))
    (htop : response.lookup "success" = none ∨
      ∃ b, response.lookup "success" = some (.bool b))
    (hentry : response.lookup sensor.entityID = some (.object status))
    (hok : status.lookup "success" = some (.bool ok))
    (herr : ok = false → ∃ e, status.lookup "error" = some (.object e)) :
    (ResponseHandler unmarshal sensor body).completes = true ∧
    (ResponseHandler unmarshal sensor body).state.Disabled =
      (status.lookup "is_disabled").isSome := by
  rw [ResponseHandler_object unmarshal sensor body response _ _ hdec hentry]
  obtain ⟨s, hs⟩ := handleSuccess_returns sensor m response hm htop
  have hmeta := handleSuccess_metadata sensor m response hm
  have hid := sameData_entityID (handleSuccess_sameData sensor response)
  rw [hs] at hmeta hid
  simp only [Outcome.state] at hmeta hid
  rw [hs]
  simp only
  obtain ⟨s2, h2, h2m⟩ := handleDisabled_metadata s _ status hmeta
  have hst : handleStatus s response = .returned s2 := by
    unfold handleStatus
    rw [hid, hentry]
    simp only [hok]
    cases ok with
    | true => simpa using h2
    | false =>
      obtain ⟨e, he⟩ := herr rfl
      simpa [he] using h2
  rw [hst]
  simp [Outcome.completes, Outcome.state, sensorState.Disabled, h2m]

theorem ResponseHandler_disabled_witness :
    jsonUnmarshal.decode "\x7b\"wifi_strength\":\x7b\"success\":true\x7d\x7d" =
      .ok (.object [("wifi_strength", .object [("success", .bool true)])]) ∧
    wifiStrength.Disabled = true ∧
    (ResponseHandler jsonUnmarshal wifiStrength
      "\x7b\"wifi_strength\":\x7b\"success\":true\x7d\x7d").state.Disabled = false :=
  ⟨rfl, rfl,
    (ResponseHandler_disabled jsonUnmarshal wifiStrength
      { Registered := true, Disabled := true }
      "\x7b\"wifi_strength\":\x7b\"success\":true\x7d\x7d"
      [("wifi_strength", .object [("success", .bool true)])] [("success", .bool true)] true
      rfl rfl (Or.inl rfl) rfl rfl (fun h => by cases h)).2⟩

/-- C5 (as stated) fails. The disabled sensor `wifi_strength` receives an object
with the entry `wifi_strength` (boolean `success`, no `is_disabled`) next to a
top-level `success` that is a string: the handler panics on `v.(bool)` and
`Disabled` stays true. The same sensor as `marshalSensorState` builds it (nil
metadata) receives an entry with `is_disabled`: the handler panics on the nil
metadata and `Disabled()` stays false. -/
theorem disabled_not_updated :
    (jsonUnmarshal.decode
        "\x7b\"success\":\"yes\",\"wifi_strength\":\x7b\"success\":true\x7d\x7d" =
      .ok (.object [("wifi_strength", .object [("success", .bool true)]),
        ("success", .string "yes")]) ∧
     (ResponseHandler jsonUnmarshal wifiStrength
        "\x7b\"success\":\"yes\",\"wifi_strength\":\x7b\"success\":true\x7d\x7d").completes
      = false ∧
     (ResponseHandler jsonUnmarshal wifiStrength
        "\x7b\"success\":\"yes\",\"wifi_strength\":\x7b\"success\":true\x7d\x7d").state.Disabled
      = true) ∧
    (jsonUnmarshal.decode
        "\x7b\"wifi_strength\":\x7b\"success\":true,\"is_disabled\":true\x7d\x7d" =
      .ok (.object [("wifi_strength",
        .object [("is_disabled", .bool true), ("success", .bool true)])]) ∧
     (ResponseHandler jsonUnmarshal (marshalSensorState wifiStrengthUpdate)
        "\x7b\"wifi_strength\":\x7b\"success\":true,\"is_disabled\":true\x7d\x7d").completes
      = false ∧
     (ResponseHandler jsonUnmarshal (marshalSensorState wifiStrengthUpdate)
        "\x7b\"wifi_strength\":\x7b\"success\":true,\"is_disabled\":true\x7d\x7d"
      ).state.Disabled = false) :=
  ⟨⟨rfl, rfl, rfl⟩, ⟨rfl, rfl, rfl⟩⟩

/-! ## Partial responses -/

/-- C9 on the code: the sensor `wifi_strength` receives an object whose entry
`wifi_strength` has `success` false and no `error` object; the type assertion
`status["error"].(map[string]interface{})` panics, so the handler does not
complete. -/
theorem ResponseHandler_missing_error_panics :
    jsonUnmarshal.decode "\x7b\"wifi_strength\":\x7b\"success\":false\x7d\x7d" =
      .ok (.object [("wifi_strength", .object [("success", .bool false)])]) ∧
    ResponseHandler jsonUnmarshal wifiStrength
        "\x7b\"wifi_strength\":\x7b\"success\":false\x7d\x7d" = .panicked wifiStrength ∧
    (ResponseHandler jsonUnmarshal wifiStrength
        "\x7b\"wifi_strength\":\x7b\"success\":false\x7d\x7d").completes = false :=
  ⟨rfl, rfl, rfl⟩

/-! ## The request envelope: claims -/

/-- C10: for every request whose request type is `encrypted`, `marshalJSON` called
with an empty secret fails with `MissingSecretError` and returns no request body
(nil bytes). -/
theorem marshalJSON_missing_secret (request : Request)
    (h : request.RequestType = .RequestTypeEncrypted) :
    marshalJSON request "" = (none, some .MissingSecretError) ∧
    (marshalJSON request "").1 = none ∧
    (marshalJSON request "").2 ≠ none := by
  simp [marshalJSON, h]

theorem marshalJSON_missing_secret_witness :
    mockEncReq.RequestType = .RequestTypeEncrypted ∧
    marshalJSON mockEncReq "" = (none, some .MissingSecretError) :=
  ⟨rfl, (marshalJSON_missing_secret mockEncReq rfl).1⟩

/-- C11: for every request whose type `T` is not `encrypted` and every secret,
`marshalJSON` succeeds (nil error) and returns exactly the object with `type` equal
to `T` and `data` equal to the request's data in compact form; the request of the
tests gives the bytes the tests expect. -/
theorem marshalJSON_unencrypted (request : Request) (secret : String)
    (h : request.RequestType ≠ .RequestTypeEncrypted) :
    marshalJSON request secret =
      (some ("\x7b\"type\":\"" ++ request.RequestType.toString ++ "\",\"data\":" ++
        compact request.RequestData ++ "\x7d"), none) ∧
    (request.RequestType.toString = "update_sensor_states" ∨
      request.RequestType.toString = "register_sensor") := by
  refine ⟨by simp [marshalJSON, h], ?_⟩
  cases hT : request.RequestType with
  | RequestTypeUpdateSensorStates => exact Or.inl rfl
  | RequestTypeRegisterSensor => exact Or.inr rfl
  | RequestTypeEncrypted => exact absurd hT h

theorem marshalJSON_unencrypted_witness :
    mockReq.RequestType ≠ .RequestTypeEncrypted ∧
    marshalJSON mockReq "" =
      (some "\x7b\"type\":\"update_sensor_states\",\"data\":\x7b\"someField\":\"someValue\"\x7d\x7d",
        none) :=
  ⟨by decide, (marshalJSON_unencrypted mockReq "" (by decide)).1.trans (by decide)⟩

/-- C12: for every request whose type is `encrypted` and every non-empty secret,
`marshalJSON` succeeds (nil error) and returns the object with `type` equal to
`encrypted`, `encrypted_data` equal to the request's data in compact form and
`encrypted` equal to `true`; the encrypted request of the tests with the secret
`fakeSecret` gives the bytes the tests expect. -/
theorem marshalJSON_encrypted (request : Request) (secret : String)
    (h : request.RequestType = .RequestTypeEncrypted) (hs : secret ≠ "") :
    marshalJSON request secret =
      (some ("\x7b\"type\":\"encrypted\",\"encrypted_data\":" ++
        compact request.RequestData ++ ",\"encrypted\":true\x7d"), none) := by
  simp only [marshalJSON, h, if_true, if_neg hs]
  rfl

theorem marshalJSON_encrypted_witness :
    mockEncReq.RequestType = .RequestTypeEncrypted ∧ "fakeSecret" ≠ "" ∧
    marshalJSON mockEncReq "fakeSecret" =
      (some "\x7b\"type\":\"encrypted\",\"encrypted_data\":\x7b\"someField\":\"someValue\"\x7d,\"encrypted\":true\x7d",
        none) :=
  ⟨rfl, by decide,
    (marshalJSON_encrypted mockEncReq "fakeSecret" rfl (by decide)).trans (by decide)⟩

/-! ## Registration: claims -/

theorem lookup_SetPref (agent : Agent) (key k : String) (value : PrefValue) :
    (agent.SetPref key value).GetPref k =
      if k = key then some value else agent.GetPref k := by
  unfold Agent.SetPref Agent.GetPref
  by_cases h : k = key
  · simp [h, List.lookup]
  · have : (k == key) = false := by simpa using h
    simp [h, List.lookup, this]

/-- C13: whenever `getRegistrationInfo` returns nil, `runRegistrationWorker` returns
an error, makes no call of `RegisterWithHass` and writes only `DeviceID` and
`DeviceName` to the preference store: each of `Host`, `UseTLS`, `Token`,
`WebhookID`, `Secret`, `CloudhookURL` and `RemoteUIURL` reads as before. -/
theorem runRegistrationWorker_no_host_info {Req : Type} (agent : Agent)
    (thisDevice : Device) (GenerateRegistrationRequest : Device → Req)
    (RegisterWithHass : RegistrationHost → Req → Option RegistrationResponse) :
    (agent.runRegistrationWorker thisDevice none GenerateRegistrationRequest
      RegisterWithHass).err = some "problem getting registration information" ∧
    (agent.runRegistrationWorker thisDevice none GenerateRegistrationRequest
      RegisterWithHass).registerCalls = [] ∧
    (agent.runRegistrationWorker thisDevice none GenerateRegistrationRequest
      RegisterWithHass).agent.prefs =
        ("DeviceName", .str thisDevice.DeviceName) ::
          ("DeviceID", .str thisDevice.DeviceID) :: agent.prefs ∧
    ∀ k ∈ credentialKeys,
      (agent.runRegistrationWorker thisDevice none GenerateRegistrationRequest
        RegisterWithHass).agent.GetPref k = agent.GetPref k := by
  refine ⟨rfl, rfl, rfl, ?_⟩
  intro k hk
  simp only [Agent.runRegistrationWorker, lookup_SetPref]
  simp only [credentialKeys, List.mem_cons, List.mem_singleton, List.not_mem_nil,
    or_false] at hk
  rcases hk with h | h | h | h | h | h | h <;> subst h <;> simp

/-- C14 (amended): once host info has been obtained, `runRegistrationWorker` makes one
registration call; when that call yields no response (nil) it returns an error and
every credential preference reads as before; when it yields any response, whatever
fields the response carries, it returns success with the store as
`saveRegistration` leaves it. -/
theorem runRegistrationWorker_with_host_info {Req : Type} (agent : Agent)
    (thisDevice : Device) (hostInfo : RegistrationHost)
    (GenerateRegistrationRequest : Device → Req)
    (RegisterWithHass : RegistrationHost → Req → Option RegistrationResponse) :
    (agent.runRegistrationWorker thisDevice (some hostInfo) GenerateRegistrationRequest
      RegisterWithHass).registerCalls =
        [(hostInfo, GenerateRegistrationRequest thisDevice)] ∧
    (RegisterWithHass hostInfo (GenerateRegistrationRequest thisDevice) = none →
      (agent.runRegistrationWorker thisDevice (some hostInfo) GenerateRegistrationRequest
        RegisterWithHass).err = some "registration failed" ∧
      ∀ k ∈ credentialKeys,
        (agent.runRegistrationWorker thisDevice (some hostInfo) GenerateRegistrationRequest
          RegisterWithHass).agent.GetPref k = agent.GetPref k) ∧
    (∀ r, RegisterWithHass hostInfo (GenerateRegistrationRequest thisDevice) = some r →
      (agent.runRegistrationWorker thisDevice (some hostInfo) GenerateRegistrationRequest
        RegisterWithHass).err = none ∧
      (agent.runRegistrationWorker thisDevice (some hostInfo) GenerateRegistrationRequest
        RegisterWithHass).agent =
          ((agent.SetPref "DeviceID" (.str thisDevice.DeviceID)).SetPref "DeviceName"
            (.str thisDevice.DeviceName)).saveRegistration r hostInfo) := by
  refine ⟨?_, ?_, ?_⟩
  · cases hreg : RegisterWithHass hostInfo (GenerateRegistrationRequest thisDevice) <;>
      simp [Agent.runRegistrationWorker, hreg]
  · intro hnone
    refine ⟨by simp [Agent.runRegistrationWorker, hnone], ?_⟩
    intro k hk
    simp only [Agent.runRegistrationWorker, hnone, lookup_SetPref]
    simp only [credentialKeys, List.mem_cons, List.mem_singleton, List.not_mem_nil,
      or_false] at hk
    rcases hk with h | h | h | h | h | h | h <;> subst h <;> simp
  · intro r hr
    simp [Agent.runRegistrationWorker, hr]

theorem runRegistrationWorker_with_host_info_witness :
    (sampleAgent.runRegistrationWorker sampleDevice (some sampleHost) id
      (fun _ _ => none)).err = some "registration failed" ∧
    (sampleAgent.runRegistrationWorker sampleDevice (some sampleHost) id
      (fun _ _ => some sampleResponse)).err = none :=
  ⟨((runRegistrationWorker_with_host_info sampleAgent sampleDevice sampleHost id
      (fun _ _ => none)).2.1 rfl).1,
   ((runRegistrationWorker_with_host_info sampleAgent sampleDevice sampleHost id
      (fun _ _ => some sampleResponse)).2.2 sampleResponse rfl).1⟩

/-- C14 (as stated) fails: with host info obtained and a registration call that
yields a response with an empty webhook ID (and no other credential field), the
flow returns success and has written `Host`, `UseTLS` and `Token`. -/
theorem registration_succeeds_without_credentials :
    emptyResponse.WebhookID = "" ∧
    (sampleAgent.runRegistrationWorker sampleDevice (some sampleHost) id
      (fun _ _ => some emptyResponse)).err = none ∧
    (sampleAgent.runRegistrationWorker sampleDevice (some sampleHost) id
      (fun _ _ => some emptyResponse)).agent.GetPref "Host" =
        some (.str "localhost:8123") ∧
    (sampleAgent.runRegistrationWorker sampleDevice (some sampleHost) id
      (fun _ _ => some emptyResponse)).agent.GetPref "Token" = some (.str "token") ∧
    (sampleAgent.runRegistrationWorker sampleDevice (some sampleHost) id
      (fun _ _ => some emptyResponse)).agent.GetPref "WebhookID" = none := by
  decide

/-- C15: for every registration response `r` and host info `h`, after
`saveRegistration` the store holds `Host`, `UseTLS` and `Token` from `h`, and each
of `WebhookID`, `Secret`, `CloudhookURL` and `RemoteUIURL` reads as `r`'s value when
that value is non-empty and otherwise reads exactly as before the call. -/
theorem saveRegistration_prefs (agent : Agent) (r : RegistrationResponse)
    (h : RegistrationHost) :
    (agent.saveRegistration r h).GetPref "Host" = some (.str h.Server) ∧
    (agent.saveRegistration r h).GetPref "UseTLS" = some (.bool h.UseTLS) ∧
    (agent.saveRegistration r h).GetPref "Token" = some (.str h.Token) ∧
    (agent.saveRegistration r h).GetPref "WebhookID" =
      (if r.WebhookID ≠ "" then some (.str r.WebhookID) else agent.GetPref "WebhookID") ∧
    (agent.saveRegistration r h).GetPref "Secret" =
      (if r.Secret ≠ "" then some (.str r.Secret) else agent.GetPref "Secret") ∧
    (agent.saveRegistration r h).GetPref "CloudhookURL" =
      (if r.CloudhookURL ≠ "" then some (.str r.CloudhookURL)
        else agent.GetPref "CloudhookURL") ∧
    (agent.saveRegistration r h).GetPref "RemoteUIURL" =
      (if r.RemoteUIURL ≠ "" then some (.str r.RemoteUIURL)
        else agent.GetPref "RemoteUIURL") := by
  unfold Agent.saveRegistration
  by_cases h1 : r.CloudhookURL = "" <;> by_cases h2 : r.RemoteUIURL = "" <;>
    by_cases h3 : r.Secret = "" <;> by_cases h4 : r.WebhookID = "" <;>
    simp [h1, h2, h3, h4, lookup_SetPref]

/-! ## Responses that are not objects -/

/-- C16 on the code: the bodies `[]` and `null` are valid JSON and not objects; on
each the type assertion `r.(map[string]interface{})` panics, so the handler does
not return normally (the metadata flags are as before). -/
theorem ResponseHandler_non_object_panics :
    (jsonUnmarshal.decode "[]" = .ok (.array []) ∧
      ResponseHandler jsonUnmarshal batteryLevel "[]" = .panicked batteryLevel ∧
      (ResponseHandler jsonUnmarshal batteryLevel "[]").completes = false) ∧
    (jsonUnmarshal.decode "null" = .ok .null ∧
      ResponseHandler jsonUnmarshal batteryLevel "null" = .panicked batteryLevel ∧
      (ResponseHandler jsonUnmarshal batteryLevel "null").completes = false) :=
  ⟨⟨rfl, rfl, rfl⟩, ⟨rfl, rfl, rfl⟩⟩

/-! ## Only the top-level success flag registers -/

theorem handleSuccess_nil (sensor : sensorState) (response : List (String × Value))
    (hm : sensor.metadata = none) :
    (handleSuccess sensor response).state = sensor ∧
    (response.lookup "success" = some (.bool true) →
      handleSuccess sensor response = .panicked sensor) := by
  unfold handleSuccess
  generalize response.lookup "success" = l
  cases l with
  | none => simp [Outcome.state]
  | some v =>
    cases v with
    | bool b => cases b <;> simp [Outcome.state, hm]
    | null => simp [Outcome.state]
    | number lit => simp [Outcome.state]
    | string s => simp [Outcome.state]
    | array xs => simp [Outcome.state]
    | object kvs => simp [Outcome.state]

theorem handleDisabled_nil (sensor : sensorState) (status : List (String × Value))
    (hm : sensor.metadata = none) : handleDisabled sensor status = .panicked sensor := by
  unfold handleDisabled
  cases status.lookup "is_disabled" <;> simp [hm]

theorem handleStatus_nil (sensor : sensorState) (response : List (String × Value))
    (hm : sensor.metadata = none) : (handleStatus sensor response).state = sensor := by
  unfold handleStatus
  repeat' split
  all_goals first
    | rw [handleDisabled_nil _ _ hm]; rfl
    | rfl

theorem ResponseHandler_nil (unmarshal : Decoder) (sensor : sensorState) (body : String)
    (hm : sensor.metadata = none) :
    (ResponseHandler unmarshal sensor body).state = sensor ∧
    ((ResponseHandler unmarshal sensor body).completes = true →
      topSuccess unmarshal body = false) := by
  by_cases hg : (body.utf8ByteSize == 0 || body == "\x7b\x7d") = true
  · rw [ResponseHandler_ignored unmarshal sensor body hg]
    exact ⟨rfl, fun _ => topSuccess_empty unmarshal body hg⟩
  · unfold ResponseHandler topSuccess
    rw [if_neg hg]
    cases hdec : unmarshal.decode body with
    | error e => simp [Outcome.state]
    | ok v =>
      cases v with
      | object response =>
        simp only
        obtain ⟨h1, h2⟩ := handleSuccess_nil sensor response hm
        cases hs : handleSuccess sensor response with
        | panicked s =>
          rw [hs] at h1
          exact ⟨h1, fun hc => by simp [Outcome.completes] at hc⟩
        | returned s =>
          rw [hs] at h1
          simp only [Outcome.state] at h1
          subst h1
          refine ⟨handleStatus_nil s response hm, fun _ => ?_⟩
          cases hl : response.lookup "success" with
          | none => rfl
          | some v =>
            cases v with
            | bool b =>
              cases b with
              | false => rfl
              | true => rw [h2 hl] at hs; cases hs
            | null => rfl
            | number lit => rfl
            | string s => rfl
            | array xs => rfl
            | object kvs => rfl
      | null => simp [Outcome.state, Outcome.completes]
      | bool b => simp [Outcome.state, Outcome.completes]
      | number lit => simp [Outcome.state, Outcome.completes]
      | string s => simp [Outcome.state, Outcome.completes]
      | array xs => simp [Outcome.state, Outcome.completes]

/-- C17: for every sensor state and every response body on which `ResponseHandler`
completes, `Registered` afterwards equals `Registered` before or-ed with "the body
is a JSON object whose top-level `success` is `true`"; so a body without a
top-level `success` of `true` (a top-level `success` of `false`, or only a
per-sensor entry) leaves an unregistered sensor unregistered. -/
theorem registered_iff_top_success (unmarshal : Decoder) (sensor : sensorState)
    (body : String) (hc : (ResponseHandler unmarshal sensor body).completes = true) :
    (ResponseHandler unmarshal sensor body).state.Registered =
      (sensor.Registered || topSuccess unmarshal body) ∧
    (sensor.Registered = false → topSuccess unmarshal body = false →
      (ResponseHandler unmarshal sensor body).state.Registered = false) := by
  have key : (ResponseHandler unmarshal sensor body).state.Registered =
      (sensor.Registered || topSuccess unmarshal body) := by
    cases hm : sensor.metadata with
    | none =>
      obtain ⟨h1, h2⟩ := ResponseHandler_nil unmarshal sensor body hm
      rw [h1, h2 hc, Bool.or_false]
    | some m =>
      obtain ⟨d, hd⟩ := ResponseHandler_registered_eq unmarshal sensor m body hm
      simp [sensorState.Registered, hd, hm]
  refine ⟨key, fun h1 h2 => ?_⟩
  rw [key, h1, h2]
  rfl

theorem registered_iff_top_success_witness :
    topSuccess jsonUnmarshal "\x7b\"success\":false\x7d" = false ∧
    (ResponseHandler jsonUnmarshal batteryLevel "\x7b\"success\":false\x7d").state.Registered
      = false ∧
    topSuccess jsonUnmarshal "\x7b\"battery_level\":\x7b\"success\":true\x7d\x7d" = false ∧
    (ResponseHandler jsonUnmarshal batteryLevel
      "\x7b\"battery_level\":\x7b\"success\":true\x7d\x7d").state.Registered = false :=
  ⟨by decide,
   (registered_iff_top_success jsonUnmarshal batteryLevel "\x7b\"success\":false\x7d"
      (by decide)).2 rfl (by decide),
   by decide,
   (registered_iff_top_success jsonUnmarshal batteryLevel
      "\x7b\"battery_level\":\x7b\"success\":true\x7d\x7d" (by decide)).2 rfl (by decide)⟩

/-! ## Applying a body twice -/

theorem handleSuccess_again (sensor a t : sensorState) (response : List (String × Value))
    (h : handleSuccess sensor response = .returned a)
    (ht : t.metadata.map (·.Registered) = a.metadata.map (·.Registered)) :
    handleSuccess t response = .returned t := by
  unfold handleSuccess at h ⊢
  generalize response.lookup "success" = l at h ⊢
  cases l with
  | none => rfl
  | some v =>
    cases v with
    | bool b =>
      cases b with
      | false => rfl
      | true =>
        cases hm : sensor.metadata with
        | none => simp [hm] at h
        | some m =>
          have ha : a.metadata.map (·.Registered) = some true := by
            cases hr : m.Registered <;> simp [hm, hr] at h <;> subst h <;> simp [hm, hr]
          rw [ha] at ht
          cases hmt : t.metadata with
          | none => simp [hmt] at ht
          | some mt =>
            have : mt.Registered = true := by simpa [hmt] using ht
            simp [this]
    | null => simp at h
    | number lit => simp at h
    | string s => simp at h
    | array xs => simp at h
    | object kvs => simp at h

theorem handleDisabled_again (a s1 : sensorState) (status : List (String × Value))
    (h : handleDisabled a status = .returned s1) :
    handleDisabled s1 status = .returned s1 := by
  unfold handleDisabled at h ⊢
  generalize status.lookup "is_disabled" = l at h ⊢
  cases hm : a.metadata with
  | none => cases l <;> simp [hm] at h
  | some m =>
    cases m with
    | mk r d =>
      cases l with
      | none => cases d <;> simp [hm] at h <;> subst h <;> simp [hm]
      | some v => simp [hm] at h; subst h; simp

theorem handleStatus_again (a s1 : sensorState) (response : List (String × Value))
    (h : handleStatus a response = .returned s1) :
    handleStatus s1 response = .returned s1 := by
  have hid : s1.entityID = a.entityID := by
    have := sameData_entityID (handleStatus_sameData a response)
    rw [h] at this
    exact this
  unfold handleStatus at h ⊢
  rw [hid]
  generalize response.lookup a.entityID = l at h ⊢
  cases l with
  | none => simp at h; subst h; rfl
  | some v =>
    cases v with
    | object status =>
      simp only at h ⊢
      generalize status.lookup "success" = l2 at h ⊢
      cases l2 with
      | none => simp at h
      | some w =>
        cases w with
        | bool ok =>
          cases ok with
          | true => exact handleDisabled_again a s1 status (by simpa using h)
          | false =>
            simp only [Bool.not_false, if_true] at h ⊢
            generalize status.lookup "error" = l3 at h ⊢
            cases l3 with
            | none => simp at h
            | some e =>
              cases e with
              | object kvs => exact handleDisabled_again a s1 status (by simpa using h)
              | null => simp at h
              | bool b => simp at h
              | number lit => simp at h
              | string s => simp at h
              | array xs => simp at h
        | null => simp at h
        | number lit => simp at h
        | string s => simp at h
        | array xs => simp at h
        | object kvs => simp at h
    | null => simp at h
    | bool b => simp at h
    | number lit => simp at h
    | string s => simp at h
    | array xs => simp at h

theorem handleStatus_registered_map (a s1 : sensorState) (response : List (String × Value))
    (h : handleStatus a response = .returned s1) :
    s1.metadata.map (·.Registered) = a.metadata.map (·.Registered) := by
  cases hm : a.metadata with
  | none =>
    have := handleStatus_nil a response hm
    rw [h] at this
    simp only [Outcome.state] at this
    rw [this, hm]
  | some m =>
    obtain ⟨d, hd⟩ := handleStatus_metadata a m response hm
    rw [h] at hd
    simp only [Outcome.state] at hd
    simp [hd]

theorem ResponseHandler_again (unmarshal : Decoder) (sensor s1 : sensorState) (body : String)
    (h : ResponseHandler unmarshal sensor body = .returned s1) :
    ResponseHandler unmarshal s1 body = .returned s1 := by
  by_cases hg : (body.utf8ByteSize == 0 || body == "\x7b\x7d") = true
  · exact ResponseHandler_ignored unmarshal s1 body hg
  · unfold ResponseHandler at h ⊢
    rw [if_neg hg] at h ⊢
    cases hdec : unmarshal.decode body with
    | error e => rfl
    | ok v =>
      rw [hdec] at h
      cases v with
      | object response =>
        simp only at h ⊢
        cases hs : handleSuccess sensor response with
        | panicked s => rw [hs] at h; cases h
        | returned a =>
          rw [hs] at h
          simp only at h
          rw [handleSuccess_again sensor a s1 response hs
            (handleStatus_registered_map a s1 response h)]
          exact handleStatus_again a s1 response h
      | null => cases h
      | bool b => cases h
      | number lit => cases h
      | string s => cases h
      | array xs => cases h

/-- C20: for every sensor state and every response body on which `ResponseHandler`
completes, applying the same body again to the resulting state returns that state
unchanged: `Registered` and `Disabled` are what they were after the first
application. -/
theorem ResponseHandler_idempotent (unmarshal : Decoder) (sensor : sensorState)
    (body : String) (hc : (ResponseHandler unmarshal sensor body).completes = true) :
    ResponseHandler unmarshal (ResponseHandler unmarshal sensor body).state body =
      .returned (ResponseHandler unmarshal sensor body).state ∧
    (ResponseHandler unmarshal (ResponseHandler unmarshal sensor body).state body
      ).state.Registered = (ResponseHandler unmarshal sensor body).state.Registered ∧
    (ResponseHandler unmarshal (ResponseHandler unmarshal sensor body).state body
      ).state.Disabled = (ResponseHandler unmarshal sensor body).state.Disabled := by
  cases hres : ResponseHandler unmarshal sensor body with
  | panicked s => rw [hres] at hc; cases hc
  | returned s1 =>
    have h2 := ResponseHandler_again unmarshal sensor s1 body hres
    simp only [Outcome.state]
    rw [h2]
    exact ⟨rfl, rfl, rfl⟩

theorem ResponseHandler_idempotent_witness :
    (ResponseHandler jsonUnmarshal batteryLevel
      "\x7b\"success\":true,\"battery_level\":\x7b\"success\":true,\"is_disabled\":true\x7d\x7d"
      ).completes = true ∧
    (ResponseHandler jsonUnmarshal
      (ResponseHandler jsonUnmarshal batteryLevel
        "\x7b\"success\":true,\"battery_level\":\x7b\"success\":true,\"is_disabled\":true\x7d\x7d"
        ).state
      "\x7b\"success\":true,\"battery_level\":\x7b\"success\":true,\"is_disabled\":true\x7d\x7d"
      ).state.Disabled = true :=
  ⟨by decide,
   (ResponseHandler_idempotent jsonUnmarshal batteryLevel
      "\x7b\"success\":true,\"battery_level\":\x7b\"success\":true,\"is_disabled\":true\x7d\x7d"
      (by decide)).2.2.trans (by decide)⟩

/-! ## Sensor type names: claims -/

set_option maxRecDepth 100000 in
theorem sensorType_name_ascii :
    sensorType_name.utf8ByteSize = 581 ∧ sensorType_name.data.length = 581 ∧
    sensorType_name.data.all (fun c => decide (c.toNat < 128)) = true := by
  decide

set_option maxRecDepth 100000 in
theorem sensorType_String_table :
    (List.range 41).map (fun n => sensorType.String ((n : Int) + 1)) =
      sensorTypeNames.map some := by
  decide

set_option maxRecDepth 100000 in
theorem sensorType_String_slices (n : Nat) (hn : n < 41) :
    ∃ lo hi, sensorType_index[n]? = some lo ∧ sensorType_index[n + 1]? = some hi ∧
      lo < hi ∧ hi ≤ 581 ∧
      sensorType.String ((n : Int) + 1) =
        some (String.mk ((sensorType_name.data.drop lo).take (hi - lo))) ∧
      sensorType.String ((n : Int) + 1) = sensorTypeNames[n]? := by
  interval_cases n <;> exact ⟨_, _, rfl, rfl, by decide, by decide, by decide, by decide⟩

set_option maxRecDepth 100000 in
theorem sensorType_String_examples :
    sensorType.String 1 = some "Active App" ∧
    sensorType.String 30 = some "Wi-Fi Signal Strength" ∧
    sensorType.String 41 = some "Problems" ∧
    sensorType.String 4 = some "Battery Level" ∧
    sensorType.String 11 = some "Battery Level" := by
  decide

theorem sensorType_String_other (i : Int) (h1 : -9223372036854775808 ≤ i)
    (h2 : i < 9223372036854775808) (h3 : ¬(1 ≤ i ∧ i ≤ 41)) :
    sensorType.String i = some ("sensorType(" ++ FormatInt i ++ ")") := by
  have hlen : wrapInt64 ((sensorType_index.length : Int) - 1) = 41 := by decide
  have hback : wrapInt64 (wrapInt64 (i - 1) + 1) = i := by
    unfold wrapInt64
    omega
  have hout : wrapInt64 (i - 1) < 0 ∨ wrapInt64 (i - 1) ≥ 41 := by
    unfold wrapInt64
    omega
  unfold sensorType.String
  simp only [hlen, hback, if_pos hout]

/-- C18: for every `sensorType` value `i` with `1 <= i <= 41`, `String()` returns the
slice of `_sensorType_name` between `_sensorType_index[i-1]` and
`_sensorType_index[i]`, bounds that are increasing and within the 581 bytes of the
name string, which is the `i`-th display name (`String(1)` is `Active App`,
`String(30)` is `Wi-Fi Signal Strength`, `String(41)` is `Problems`); for every
other 64-bit value it returns `sensorType(` followed by `i` in decimal and `)`. -/
theorem sensorType_String_spec :
    (∀ i : Int, 1 ≤ i → i ≤ 41 →
      ∃ lo hi, sensorType_index[(i - 1).toNat]? = some lo ∧
        sensorType_index[i.toNat]? = some hi ∧
        lo < hi ∧ hi ≤ 581 ∧
        sensorType.String i =
          some (String.mk ((sensorType_name.data.drop lo).take (hi - lo))) ∧
        sensorType.String i = sensorTypeNames[(i - 1).toNat]?) ∧
    sensorType_name.utf8ByteSize = 581 ∧
    sensorType.String 1 = some "Active App" ∧
    sensorType.String 30 = some "Wi-Fi Signal Strength" ∧
    sensorType.String 41 = some "Problems" ∧
    (∀ i : Int, -9223372036854775808 ≤ i → i < 9223372036854775808 →
      ¬(1 ≤ i ∧ i ≤ 41) →
      sensorType.String i = some ("sensorType(" ++ FormatInt i ++ ")")) := by
  refine ⟨?_, sensorType_name_ascii.1, sensorType_String_examples.1,
    sensorType_String_examples.2.1, sensorType_String_examples.2.2.1,
    sensorType_String_other⟩
  intro i h1 h2
  obtain ⟨n, rfl⟩ : ∃ n : Nat, i = (n : Int) + 1 := ⟨(i - 1).toNat, by omega⟩
  have hn : n < 41 := by omega
  have e1 : ((n : Int) + 1 - 1).toNat = n := by omega
  have e2 : ((n : Int) + 1).toNat = n + 1 := by omega
  rw [e1, e2]
  exact sensorType_String_slices n hn

theorem sensorType_String_spec_witness :
    sensorType.String 11 = some "Battery Level" ∧
    sensorType.String 0 = some "sensorType(0)" ∧
    sensorType.String 42 = some "sensorType(42)" ∧
    sensorType.String (-7) = some "sensorType(-7)" := by
  refine ⟨?_, ?_, ?_, ?_⟩
  · obtain ⟨lo, hi, _, _, _, _, _, h⟩ :=
      sensorType_String_spec.1 11 (by decide) (by decide)
    exact h.trans (by decide)
  · exact (sensorType_String_spec.2.2.2.2.2 0 (by decide) (by decide) (by decide)).trans
      (by decide)
  · exact (sensorType_String_spec.2.2.2.2.2 42 (by decide) (by decide) (by decide)).trans
      (by decide)
  · exact (sensorType_String_spec.2.2.2.2.2 (-7) (by decide) (by decide) (by decide)).trans
      (by decide)

set_option maxRecDepth 100000 in
theorem sensorTypeNames_shared :
    ∀ a ∈ List.range 41, ∀ b ∈ List.range 41,
      a ≠ b → sensorTypeNames[a]? = sensorTypeNames[b]? →
        (a = 3 ∧ b = 10) ∨ (a = 10 ∧ b = 3) := by
  decide

/-- C19: `sensorType.String` is not injective on the valid sensor types:
`battPercentage` (4) and `battLevel` (11) both yield `Battery Level`, and two
distinct values in 1..41 that yield the same display name are 4 and 11. -/
theorem sensorType_String_not_injective :
    sensorType.String 4 = some "Battery Level" ∧
    sensorType.String 11 = some "Battery Level" ∧
    ∀ i j : Int, 1 ≤ i → i ≤ 41 → 1 ≤ j → j ≤ 41 → i ≠ j →
      sensorType.String i = sensorType.String j →
      (i = 4 ∧ j = 11) ∨ (i = 11 ∧ j = 4) := by
  refine ⟨sensorType_String_examples.2.2.2.1, sensorType_String_examples.2.2.2.2, ?_⟩
  intro i j hi1 hi2 hj1 hj2 hne heq
  obtain ⟨a, rfl⟩ : ∃ a : Nat, i = (a : Int) + 1 := ⟨(i - 1).toNat, by omega⟩
  obtain ⟨b, rfl⟩ : ∃ b : Nat, j = (b : Int) + 1 := ⟨(j - 1).toNat, by omega⟩
  have ha : a < 41 := by omega
  have hb : b < 41 := by omega
  obtain ⟨_, _, _, _, _, _, _, hA⟩ := sensorType_String_slices a ha
  obtain ⟨_, _, _, _, _, _, _, hB⟩ := sensorType_String_slices b hb
  rw [hA, hB] at heq
  have hab : a ≠ b := fun h => hne (by rw [h])
  rcases sensorTypeNames_shared a (List.mem_range.2 ha) b (List.mem_range.2 hb) hab heq with ⟨h1, h2⟩ | ⟨h1, h2⟩
  · left; omega
  · right; omega

theorem sensorType_String_not_injective_witness :
    sensorType.String 4 = sensorType.String 11 ∧
    (((4 : Int) = 4 ∧ (11 : Int) = 11) ∨ ((4 : Int) = 11 ∧ (11 : Int) = 4)) :=
  ⟨sensorType_String_not_injective.1.trans sensorType_String_not_injective.2.1.symm,
   sensorType_String_not_injective.2.2 4 11 (by decide) (by decide) (by decide) (by decide)
     (by decide)
     (sensorType_String_not_injective.1.trans sensorType_String_not_injective.2.1.symm)⟩

end HassAgent
